/-
Verification development for the ceph RBD storage driver of the incus
repository (package drivers): the naming codec (parseParent, parseClone),
the dependency-aware deletion engine (deleteVolume, deleteVolumeSnapshot),
the device-mapping resolver (getRBDMappedDevPath, rbdUnmapVolume) and the
incremental transfer pipeline (receiveVolume).

Go strings are modelled as lists of characters (type Str below); the Go
standard-library string helpers used by the source are re-implemented on
that representation, mirroring their documented semantics.  External
command invocations and recursive calls of the deletion engine are
modelled by oracles (function-valued parameters), and the engine is
instrumented with an action trace so that statements such as "the volume
is not physically deleted" or "no deletion is attempted on the parent"
become statements about the trace.
-/
import Mathlib

set_option autoImplicit false

/-- Go strings modelled as lists of characters. -/
abbrev Str := List Char

/-- Model of Go strings.HasPrefix: does `s` start with `pat`. -/
def startsWithL : Str → Str → Bool
  | _, [] => true
  | [], _ :: _ => false
  | a :: s, b :: p => a == b && startsWithL s p

/-- Model of Go strings.HasSuffix: does `s` end with `pat`. -/
def endsWithL (s pat : Str) : Bool :=
  startsWithL s.reverse pat.reverse

/-- Split at the first occurrence of character `c`: returns the parts
before and after it, or none when `c` does not occur. -/
def splitFirstOn (c : Char) : Str → Option (Str × Str)
  | [] => none
  | x :: xs =>
    if x = c then some ([], xs)
    else
      match splitFirstOn c xs with
      | none => none
      | some (a, b) => some (x :: a, b)

/-- Model of Go strings.SplitN(s, c, 2) for a one-character separator. -/
def goSplitN2Char (c : Char) (s : Str) : List Str :=
  match splitFirstOn c s with
  | none => [s]
  | some (a, b) => [a, b]

/-- Split at the first occurrence of the (non-empty) pattern `pat`. -/
def breakOnL (pat : Str) : Str → Option (Str × Str)
  | [] => none
  | x :: xs =>
    if startsWithL (x :: xs) pat then some ([], (x :: xs).drop pat.length)
    else
      match breakOnL pat xs with
      | none => none
      | some (a, b) => some (x :: a, b)

/-- Model of Go strings.SplitN(s, pat, 2) for a non-empty separator string. -/
def goSplitN2Str (pat : Str) (s : Str) : List Str :=
  match breakOnL pat s with
  | none => [s]
  | some (a, b) => [a, b]

/-- Model of Go strings.Split(s, c) for a one-character separator. -/
def splitAllChar (c : Char) : Str → List Str
  | [] => [[]]
  | x :: xs =>
    match splitAllChar c xs with
    | h :: t => if x = c then [] :: h :: t else (x :: h) :: t
    | [] => [[]]

/-- Model of Go strings.TrimSuffix. -/
def trimSuffixL (s pat : Str) : Str :=
  if endsWithL s pat then s.take (s.length - pat.length) else s

/-- The zombie marker used in backend names. -/
def zombieMark : Str := "zombie_".toList

/-- Model of Go strings.TrimPrefix applied to the zombie marker. -/
def trimZombie (s : Str) : Str :=
  if startsWithL s zombieMark then s.drop zombieMark.length else s

/-- Model of Go strings.TrimSpace. -/
def trimSpaceL (s : Str) : Str :=
  ((s.dropWhile Char.isWhitespace).reverse.dropWhile Char.isWhitespace).reverse

/-- Split on every whitespace character (helper for fieldsL). -/
def splitWS : Str → List Str
  | [] => [[]]
  | x :: xs =>
    match splitWS xs with
    | h :: t => if x.isWhitespace then [] :: h :: t else (x :: h) :: t
    | [] => [[]]

/-- Model of Go strings.Fields: whitespace-separated non-empty words. -/
def fieldsL (s : Str) : List Str :=
  (splitWS s).filter (fun w => !w.isEmpty)

/-- Model of the Go error values produced by the driver.  Distinct failure
conditions of the source are distinct constructors; `statusNotFound`
models api.StatusErrorf(http.StatusNotFound, ...). -/
inductive GoError where
  | statusNotFound (msg : String)
  | poolDelimiterNotFound
  | unrecognizedParent (parent : Str)
  | unexpectedParsing
  | errorf (msg : String)
  | exitCode (code : Nat)
  | volumeNotMapped (name : Str)
  | importDiff (errs : List String) (output : Str)
deriving DecidableEq, Repr

/-- Short rendering of an error, standing in for Go error message text. -/
def GoError.brief : GoError → String
  | .statusNotFound m => m
  | .poolDelimiterNotFound => "Pool delimiter not found"
  | .unrecognizedParent _ => "Unrecognized parent"
  | .unexpectedParsing => "Unexpected parsing error"
  | .errorf m => m
  | .exitCode c => "exit status " ++ toString c
  | .volumeNotMapped _ => "not mapped"
  | .importDiff _ _ => "ceph import problem"

/-- Model of response.IsNotFoundError: true exactly on the 404-status
errors produced by the listing helpers. -/
def isNotFoundError : GoError → Bool
  | .statusNotFound _ => true
  | _ => false

/-- Volume type name constants (drivers.VolumeType values; the concrete
strings are irrelevant to every claim, only their distinctness is used). -/
def VolumeTypeContainer : Str := "containers".toList

/-- Volume type name constant for virtual machines. -/
def VolumeTypeVM : Str := "virtual-machines".toList

/-- Volume type name constant for images. -/
def VolumeTypeImage : Str := "images".toList

/-- Volume type name constant for custom volumes. -/
def VolumeTypeCustom : Str := "custom".toList

/-- Content type name constant for filesystem volumes. -/
def ContentTypeFS : Str := "filesystem".toList

/-- Content type name constant for block volumes. -/
def ContentTypeBlock : Str := "block".toList

/-- Content type name constant for ISO volumes. -/
def ContentTypeISO : Str := "iso".toList

/-- The config key carrying the filesystem hint of image volumes. -/
def fsKey : Str := "block.filesystem".toList

/-- Model of the drivers.Volume identity fields used by this file:
pool name, volume type, content type, logical name, the zombie flag
(isDeleted) and the config map (only block.filesystem is ever read). -/
structure Volume where
  pool : Str
  volType : Str
  contentType : Str
  name : Str
  isDeleted : Bool
  config : List (Str × Str)
deriving DecidableEq, Repr

/-- The zero Volume value (Go `Volume{}`). -/
def Volume.empty : Volume :=
  { pool := [], volType := [], contentType := [], name := [],
    isDeleted := false, config := [] }

/-- Modelled from the spec: a Volume optionally qualified by a snapshot
name stores the qualification inside its logical name as
`parent/snapshot` (the source of Volume.IsSnapshot is not part of src);
the spec says a Volume "may optionally be qualified by a snapshot name". -/
def Volume.IsSnapshot (v : Volume) : Bool :=
  v.name.contains '/'

/-- parseParent: splits a backend string
`<osd-pool-name>/<type>_<rbd-storage-volume>@<rbd-snapshot-name>` into a
Volume and a snapshot name, translated from the source function. -/
def parseParent (parent : Str) : Except GoError (Volume × Str) :=
  match goSplitN2Char '/' parent with
  | [poolField, parentName] =>
    let isDel := startsWithL parentName zombieMark
    if startsWithL parentName "image_".toList ||
       startsWithL parentName "zombie_image_".toList then
      let s := splitAllChar '@' parentName
      let snapName := if s.length > 1 then s.getLastD [] else []
      let name := if s.length > 1 then trimSuffixL parentName ('@' :: snapName) else parentName
      let name := (goSplitN2Str "image_".toList name).getD 1 []
      let (name, contentType) :=
        if endsWithL name ".block".toList then
          (trimSuffixL name ".block".toList, ContentTypeBlock)
        else (name, ContentTypeFS)
      let (name, config) :=
        if name.contains '_' then
          let s2 := splitAllChar '_' name
          let filesystem := s2.getLastD []
          (trimSuffixL name ('_' :: filesystem), [(fsKey, filesystem)])
        else (name, ([] : List (Str × Str)))
      .ok ({ pool := poolField, volType := VolumeTypeImage, contentType := contentType,
             name := name, isDeleted := isDel, config := config }, snapName)
    else if startsWithL parentName "custom_".toList ||
            startsWithL parentName "zombie_custom_".toList then
      let s := splitAllChar '@' parentName
      let snapName := if s.length > 1 then s.getLastD [] else []
      let name := if s.length > 1 then trimSuffixL parentName ('@' :: snapName) else parentName
      let name := (goSplitN2Str "custom_".toList name).getD 1 []
      let (name, contentType) :=
        if endsWithL name ".block".toList then
          (trimSuffixL name ".block".toList, ContentTypeBlock)
        else if endsWithL name ".iso".toList then
          (trimSuffixL name ".iso".toList, ContentTypeISO)
        else (name, ContentTypeFS)
      .ok ({ pool := poolField, volType := VolumeTypeCustom, contentType := contentType,
             name := name, isDeleted := isDel, config := [] }, snapName)
    else if startsWithL parentName "container_".toList ||
            startsWithL parentName "zombie_container_".toList then
      let s := splitAllChar '@' parentName
      let snapName := if s.length > 1 then s.getLastD [] else []
      let name := if s.length > 1 then trimSuffixL parentName ('@' :: snapName) else parentName
      let name := (goSplitN2Str "container_".toList name).getD 1 []
      let (name, contentType) :=
        if endsWithL name ".block".toList then
          (trimSuffixL name ".block".toList, ContentTypeBlock)
        else (name, ContentTypeFS)
      .ok ({ pool := poolField, volType := VolumeTypeContainer, contentType := contentType,
             name := name, isDeleted := isDel, config := [] }, snapName)
    else if startsWithL parentName "virtual-machine_".toList ||
            startsWithL parentName "zombie_virtual-machine_".toList then
      let s := splitAllChar '@' parentName
      let snapName := if s.length > 1 then s.getLastD [] else []
      let name := if s.length > 1 then trimSuffixL parentName ('@' :: snapName) else parentName
      let name := (goSplitN2Str "virtual-machine_".toList name).getD 1 []
      let (name, contentType) :=
        if endsWithL name ".block".toList then
          (trimSuffixL name ".block".toList, ContentTypeBlock)
        else (name, ContentTypeFS)
      .ok ({ pool := poolField, volType := VolumeTypeVM, contentType := contentType,
             name := name, isDeleted := isDel, config := [] }, snapName)
    else
      .error (.unrecognizedParent parent)
  | _ => .error .poolDelimiterNotFound

/-- parseClone: splits a backend string `<osd-pool-name>/<type>_<name>`
into pool, type, name and the zombie flag, translated from the source. -/
def parseClone (clone : Str) : Except GoError (Str × Str × Str × Bool) :=
  match goSplitN2Char '/' clone with
  | [poolName, volumeName0] =>
    let volumeDeleted := startsWithL volumeName0 zombieMark
    let volumeName := trimZombie volumeName0
    match goSplitN2Char '_' volumeName with
    | [volumeType, volumeName1] => .ok (poolName, volumeType, volumeName1, volumeDeleted)
    | _ => .error .unexpectedParsing
  | _ => .error .poolDelimiterNotFound

/-- Observable effect of one backend operation or recursive call issued by
the deletion engine. -/
inductive Act where
  | unmapVol (vol : Volume)
  | unmapSnap (vol : Volume) (snap : Str)
  | unprotectSnap (vol : Volume) (snap : Str)
  | deleteVol (vol : Volume)
  | deleteSnap (vol : Volume) (snap : Str)
  | markDeleted (vol : Volume) (newName : Str)
  | renameSnap (vol : Volume) (oldName newName : Str)
  | recDeleteVolume (vol : Volume)
  | recDeleteSnapshot (vol : Volume) (snap : Str)
deriving DecidableEq, Repr

/-- Trace of actions performed by one engine invocation. -/
abbrev Trace := List Act

/-- The C-style result pair of the deletion engine: the int return value
(-1 error, 0 deleted, 1 zombified) together with the Go error value. -/
abbrev DelRes := Int × Option GoError

/-- Oracle for every backend interaction of the deletion engine: each
field gives the outcome the external rbd command would produce.  The
unmapVolume and unmapVolumeSnapshot oracles abstract the retried unmap
commands (the engine always calls them with unmapUntilEINVAL=true); the
retry mechanics themselves are modelled separately by rbdUnmapVolume. -/
structure CephEnv where
  poolName : Str
  listVolumeSnapshots : Volume → Except GoError (List Str)
  listSnapshotClones : Volume → Str → Except GoError (List Str)
  getVolumeParent : Volume → Except GoError Str
  unmapVolume : Volume → Except GoError Unit
  unmapVolumeSnapshot : Volume → Str → Except GoError Unit
  unprotectVolumeSnapshot : Volume → Str → Except GoError Unit
  rbdDeleteVolume : Volume → Except GoError Unit
  rbdDeleteVolumeSnapshot : Volume → Str → Except GoError Unit
  rbdMarkVolumeDeleted : Volume → Str → Except GoError Unit
  rbdRenameVolumeSnapshot : Volume → Str → Str → Except GoError Unit
  freshUUID : Str

/-- Sequencing helper mirroring the Go pattern
`err = op(); if err != nil { return -1, err }`: record the action, stop
with (-1, err) on failure, continue with the extended trace on success. -/
def opThen (a : Act) (r : Except GoError Unit) (tr : Trace)
    (k : Trace → DelRes × Trace) : DelRes × Trace :=
  let tr := tr ++ [a]
  match r with
  | .ok _ => k tr
  | .error e => (((-1 : Int), some e), tr)

/-- The snapshot loop of deleteVolume: recursively delete each snapshot
(via the recSnap oracle), counting how many resolved to 1 (zombified) and
stopping with (-1, err) as soon as one fails. -/
def snapLoop (recSnap : Volume → Str → DelRes) (vol : Volume) :
    List Str → Nat → Trace → Except (DelRes × Trace) (Nat × Trace)
  | [], zombies, tr => .ok (zombies, tr)
  | snap :: rest, zombies, tr =>
    let tr := tr ++ [Act.recDeleteSnapshot vol snap]
    let r := recSnap vol snap
    if r.1 < 0 then .error (((-1 : Int), r.2), tr)
    else if r.1 == 1 then snapLoop recSnap vol rest (zombies + 1) tr
    else snapLoop recSnap vol rest zombies tr

/-- The clone loop of deleteVolumeSnapshot: parse each clone, a live
clone clears canDelete, a zombie clone is recursively deleted (via the
recVol oracle); a recursive result of 1 also clears canDelete and a
failure stops the whole call. -/
def cloneLoop (env : CephEnv) (recVol : Volume → DelRes) (vol : Volume) :
    List Str → Bool → Trace → Except (DelRes × Trace) (Bool × Trace)
  | [], canDelete, tr => .ok (canDelete, tr)
  | clone :: rest, canDelete, tr =>
    match parseClone clone with
    | .error pe => .error (((-1 : Int), some pe), tr)
    | .ok (_pool, cloneType, cloneName, isDel) =>
      if !isDel then cloneLoop env recVol vol rest false tr
      else
        let cloneVol : Volume :=
          { pool := env.poolName, volType := cloneType, contentType := vol.contentType,
            name := cloneName, isDeleted := isDel, config := [] }
        let tr := tr ++ [Act.recDeleteVolume cloneVol]
        let r := recVol cloneVol
        if r.1 < 0 then .error (((-1 : Int), r.2), tr)
        else if r.1 == 1 then cloneLoop env recVol vol rest false tr
        else cloneLoop env recVol vol rest canDelete tr

/-- deleteVolume, translated from the source with backend calls taken
from `env` and the recursive deleteVolumeSnapshot calls taken from the
`recSnap` oracle; returns the C-style result and the action trace. -/
def deleteVolume (env : CephEnv) (recSnap : Volume → Str → DelRes)
    (vol : Volume) : DelRes × Trace :=
  match env.listVolumeSnapshots vol with
  | .ok snaps =>
    match snapLoop recSnap vol snaps 0 [] with
    | .error r => r
    | .ok (zombies, tr) =>
      if zombies > 0 then
        opThen (.unmapVol vol) (env.unmapVolume vol) tr fun tr =>
        if vol.isDeleted then (((1 : Int), none), tr)
        else
          let newVolumeName := vol.name ++ ('_' :: env.freshUUID)
          opThen (.markDeleted vol newVolumeName)
            (env.rbdMarkVolumeDeleted vol newVolumeName) tr fun tr =>
          (((1 : Int), none), tr)
      else
        opThen (.deleteVol vol) (env.rbdDeleteVolume vol) tr fun tr =>
        (((0 : Int), none), tr)
  | .error e =>
    if !(isNotFoundError e) then (((-1 : Int), some e), [])
    else
      match env.getVolumeParent vol with
      | .ok parent =>
        match parseParent parent with
        | .error pe => (((-1 : Int), some pe), [])
        | .ok (parentVol, parentSnapshotName) =>
          opThen (.unmapVol vol) (env.unmapVolume vol) [] fun tr =>
          opThen (.deleteVol vol) (env.rbdDeleteVolume vol) tr fun tr =>
          if parentVol.isDeleted || startsWithL parentSnapshotName zombieMark then
            let tr := tr ++ [Act.recDeleteSnapshot parentVol parentSnapshotName]
            let r := recSnap parentVol parentSnapshotName
            if r.1 < 0 then (((-1 : Int), r.2), tr) else (((0 : Int), none), tr)
          else (((0 : Int), none), tr)
      | .error e2 =>
        if !(isNotFoundError e2) then (((-1 : Int), some e2), [])
        else
          opThen (.unmapVol vol) (env.unmapVolume vol) [] fun tr =>
          opThen (.deleteVol vol) (env.rbdDeleteVolume vol) tr fun tr =>
          (((0 : Int), none), tr)

/-- deleteVolumeSnapshot, translated from the source with backend calls
taken from `env` and the recursive deleteVolume calls taken from the
`recVol` oracle; returns the C-style result and the action trace. -/
def deleteVolumeSnapshot (env : CephEnv) (recVol : Volume → DelRes)
    (vol : Volume) (snapshotName : Str) : DelRes × Trace :=
  match env.listSnapshotClones vol snapshotName with
  | .error e =>
    if !(isNotFoundError e) then (((-1 : Int), some e), [])
    else
      opThen (.unprotectSnap vol snapshotName)
        (env.unprotectVolumeSnapshot vol snapshotName) [] fun tr =>
      opThen (.unmapSnap vol snapshotName)
        (env.unmapVolumeSnapshot vol snapshotName) tr fun tr =>
      opThen (.deleteSnap vol snapshotName)
        (env.rbdDeleteVolumeSnapshot vol snapshotName) tr fun tr =>
      if vol.isDeleted then
        let tr := tr ++ [Act.recDeleteVolume vol]
        let r := recVol vol
        if r.1 < 0 then (((-1 : Int), r.2), tr) else (((0 : Int), none), tr)
      else (((0 : Int), none), tr)
  | .ok clones =>
    match cloneLoop env recVol vol clones true [] with
    | .error r => r
    | .ok (canDelete, tr) =>
      if canDelete then
        opThen (.unprotectSnap vol snapshotName)
          (env.unprotectVolumeSnapshot vol snapshotName) tr fun tr =>
        opThen (.unmapSnap vol snapshotName)
          (env.unmapVolumeSnapshot vol snapshotName) tr fun tr =>
        opThen (.deleteSnap vol snapshotName)
          (env.rbdDeleteVolumeSnapshot vol snapshotName) tr fun tr =>
        if vol.isDeleted then
          let tr := tr ++ [Act.recDeleteVolume vol]
          let r := recVol vol
          if r.1 < 0 then (((-1 : Int), r.2), tr) else (((1 : Int), none), tr)
        else (((1 : Int), none), tr)
      else
        if startsWithL snapshotName zombieMark then (((1 : Int), none), tr)
        else
          opThen (.unmapSnap vol snapshotName)
            (env.unmapVolumeSnapshot vol snapshotName) tr fun tr =>
          let newSnapshotName := "zombie_snapshot_".toList ++ env.freshUUID
          opThen (.renameSnap vol snapshotName newSnapshotName)
            (env.rbdRenameVolumeSnapshot vol snapshotName newSnapshotName) tr fun tr =>
          (((1 : Int), none), tr)

/-- Outcome of one execution of the external `rbd unmap` command: clean
exit, exit with a specific code, or a failure that is not an exit-status
error. -/
inductive CmdOutcome where
  | ok
  | exit (code : Nat)
  | failure
deriving DecidableEq, Repr

/-- The error value surfaced for a command outcome (the RunCommand error
the source would return unchanged). -/
def cmdErr : CmdOutcome → GoError
  | .ok => .errorf "no error"
  | .exit c => .exitCode c
  | .failure => .errorf "run error"

/-- The goto-based loop of rbdUnmapVolume, translated from the source.
`cmd` models one invocation of the unmap command over an abstract command
state σ; `busyCount` and `ourDeactivate` are the loop-carried variables
of the source; `fuel` bounds the number of backward jumps (the source
loop has no such bound; every claim uses enough fuel).  Returns none only
when fuel runs out, otherwise the Go result and the final command state.
Exit code 22 (EINVAL, already unmapped) is success; exit code 16 (EBUSY)
retries until the tenth busy result, which is surfaced; after a clean
command exit the loop restarts when unmapUntilEINVAL is set. -/
def rbdUnmapVolumeLoop {σ : Type} (cmd : σ → CmdOutcome × σ) (unmapUntilEINVAL : Bool) :
    Nat → σ → Nat → Bool → Option (Except GoError Unit × σ)
  | 0, _, _, _ => none
  | fuel + 1, s, busyCount, ourDeactivate =>
    let (out, s') := cmd s
    match out with
    | .ok =>
      if unmapUntilEINVAL then
        rbdUnmapVolumeLoop cmd unmapUntilEINVAL fuel s' busyCount true
      else some (.ok (), s')
    | .exit code =>
      if code == 22 then some (.ok (), s')
      else if code == 16 then
        if busyCount + 1 == 10 then some (.error (cmdErr (.exit code)), s')
        else rbdUnmapVolumeLoop cmd unmapUntilEINVAL fuel s' (busyCount + 1) ourDeactivate
      else some (.error (cmdErr (.exit code)), s')
    | .failure => some (.error (cmdErr .failure), s')

/-- rbdUnmapVolume: entry point of the loop with busyCount = 0 and
ourDeactivate = false, as in the source. -/
def rbdUnmapVolume {σ : Type} (cmd : σ → CmdOutcome × σ) (unmapUntilEINVAL : Bool)
    (fuel : Nat) (s : σ) : Option (Except GoError Unit × σ) :=
  rbdUnmapVolumeLoop cmd unmapUntilEINVAL fuel s 0 false

/-- Command model consuming a fixed list of scripted outcomes: each unmap
invocation consumes the next outcome of the list. -/
def listCmd : List CmdOutcome → CmdOutcome × List CmdOutcome
  | [] => (.failure, [])
  | o :: rest => (o, rest)

/-- Command model of the kernel mapping state for one volume: unmapping a
mapped volume succeeds and leaves it unmapped; unmapping an unmapped
volume exits with code 22 (EINVAL, already unmapped). -/
def unmapKernelCmd : Bool → CmdOutcome × Bool
  | true => (.ok, false)
  | false => (.exit 22, false)

/-- One kernel-registry RBD device entry as read from sysfs: its numeric
directory index and the pool, name and current_snap attribute contents. -/
structure RBDDev where
  idx : Nat
  pool : Str
  name : Str
  currentSnap : Str
deriving DecidableEq, Repr

/-- The device path derived from a registry index (Go "/dev/rbd%d"). -/
def devPathOf (idx : Nat) : Str :=
  "/dev/rbd".toList ++ (toString idx).toList

/-- cephVolTypePrefixes from the source: maps a volume type to the
storage volume name marker used in backend names. -/
def cephVolTypeMarks : List (Str × Str) :=
  [(VolumeTypeContainer, "container".toList),
   (VolumeTypeVM, "virtual-machine".toList),
   (VolumeTypeImage, "image".toList),
   (VolumeTypeCustom, "custom".toList)]

/-- The name marker for a volume type (empty for unknown types). -/
def typeMark (t : Str) : Str :=
  (cephVolTypeMarks.lookup t).getD []

/-- Modelled from the spec: CephGetRBDImageName (its source is not part
of src).  The spec naming codec encodes
`["zombie_"]<type-marker>_<name>[.block|.iso][_<filesystemHint>][@<snapshotName>]`,
the filesystem hint applying only to image volumes; a snapshot-qualified
Volume carries its snapshot name after the `/` inside its logical name. -/
def cephGetRBDImageName (vol : Volume) (snapName : Str) (zombie : Bool) : Str :=
  let pr := splitFirstOn '/' vol.name
  let volName := match pr with | some (a, _) => a | none => vol.name
  let snap :=
    if !snapName.isEmpty then snapName
    else match pr with | some (_, b) => b | none => []
  let fsHint : Str :=
    if vol.volType == VolumeTypeImage then
      match vol.config.lookup fsKey with
      | some fs => '_' :: fs
      | none => []
    else []
  let base :=
    (if zombie then zombieMark else []) ++
    typeMark vol.volType ++ ('_' :: volName) ++
    (if vol.contentType == ContentTypeBlock then ".block".toList
     else if vol.contentType == ContentTypeISO then ".iso".toList else []) ++
    fsHint
  if !snap.isEmpty then base ++ ('@' :: snap) else base

/-- The `@`-split parts of the RBD name the resolver computes for `vol`
(getRBDVolumeName with no extra snapshot and without pool name). -/
def rbdNameParts (vol : Volume) : List Str :=
  goSplitN2Char '@' (cephGetRBDImageName vol [] vol.isDeleted)

/-- Element access into the split RBD name parts (Go indexing). -/
def partAt (parts : List Str) (i : Nat) : Str :=
  parts.getD i []

/-- The snapshot-identity check of the resolver for a snapshot volume:
the RBD name must have a snapshot part and it must equal the device
current_snap attribute. -/
def snapAttrMatch (parts : List Str) (devSnapName : Str) : Bool :=
  parts.length == 2 && partAt parts 1 == devSnapName

/-- The snapshot-identity check of the resolver for a live volume: the
device current_snap attribute must be "-" or empty
(Go slices.Contains([]string{"-", ""}, devSnapName)). -/
def noSnapAttr (devSnapName : Str) : Bool :=
  devSnapName == "-".toList || devSnapName == []

/-- The match predicate the resolver loop applies to one registry device:
pool and image name must equal the target, and the snapshot identity must
agree — for a snapshot volume the device current_snap attribute must
equal the volume snapshot name, for a live volume it must be "-" or
empty. -/
def devMatch (poolName : Str) (parts : List Str) (isSnap : Bool) (dev : RBDDev) : Bool :=
  trimSpaceL dev.pool == poolName &&
  trimSpaceL dev.name == partAt parts 0 &&
  (if isSnap then snapAttrMatch parts (trimSpaceL dev.currentSnap)
   else noSnapAttr (trimSpaceL dev.currentSnap))

/-- The enumeration loop of getRBDMappedDevPath, translated from the
source: skip devices whose pool or image name differs, then apply the
snapshot-identity check; the first matching device wins. -/
def rbdDevScan (poolName : Str) (parts : List Str) (isSnap : Bool) :
    List RBDDev → Option Str
  | [] => none
  | dev :: rest =>
    if trimSpaceL dev.pool != poolName then rbdDevScan poolName parts isSnap rest
    else if trimSpaceL dev.name != partAt parts 0 then rbdDevScan poolName parts isSnap rest
    else
      let devSnapName := trimSpaceL dev.currentSnap
      if isSnap then
        if snapAttrMatch parts devSnapName then some (devPathOf dev.idx)
        else rbdDevScan poolName parts isSnap rest
      else if noSnapAttr devSnapName then some (devPathOf dev.idx)
      else rbdDevScan poolName parts isSnap rest

/-- getRBDMappedDevPath, translated from the source: scan the kernel
device registry (`devices`); on a match return (false, path); otherwise
map the volume when mapIfMissing is set (`mapResult` models the
rbdMapVolume command) or fail with the not-mapped error. -/
def getRBDMappedDevPath (poolName : Str) (devices : List RBDDev) (vol : Volume)
    (mapIfMissing : Bool) (mapResult : Except GoError Str) :
    Except GoError (Bool × Str) :=
  match rbdDevScan poolName (rbdNameParts vol) (Volume.IsSnapshot vol) devices with
  | some path => .ok (false, path)
  | none =>
    if mapIfMissing then
      match mapResult with
      | .ok devPath => .ok (true, devPath)
      | .error e => .error e
    else .error (.volumeNotMapped vol.name)

/-- receiveVolume, translated from the source: the three early-return
pipe and start failures, then the join of the copy-goroutine outcome
(chCopyConnErr) and the process exit status (waitErr).  As in the source,
errs starts empty; the wait error is appended when present, and only then
is the copy error appended when present; a non-empty errs list yields the
aggregate error with the captured stderr output. -/
def receiveVolume (stdinPipeErr stderrPipeErr startErr : Option GoError)
    (chCopyConnErr : Option GoError) (waitErr : Option GoError)
    (output : Str) : Option GoError :=
  match stdinPipeErr with
  | some e => some e
  | none =>
  match stderrPipeErr with
  | some e => some e
  | none =>
  match startErr with
  | some e => some e
  | none =>
    let errs : List GoError := []
    let errs :=
      match waitErr with
      | some e =>
        let errs := errs ++ [e]
        match chCopyConnErr with
        | some ce => errs ++ [ce]
        | none => errs
      | none => errs
    if errs.length > 0 then
      some (.importDiff (errs.map GoError.brief) output)
    else none

/-- rbdListSnapshotClones, translated from the source: on command
success, the trimmed whitespace-separated fields of the output are the
clones; an empty clone list becomes the 404 not-found error. -/
def rbdListSnapshotClones (cmdResult : Except GoError Str) :
    Except GoError (List Str) :=
  match cmdResult with
  | .error e => .error e
  | .ok msg =>
    let msg := trimSpaceL msg
    let clones := fieldsL msg
    if clones.length == 0 then
      .error (.statusNotFound "Ceph RBD volume snapshot not found")
    else .ok clones

/-- One entry of the JSON array produced by `rbd snap ls`: either the
"name" key is missing, or its value is not a string, or it is the given
string. -/
inductive SnapEntry where
  | noName
  | nonStringName
  | named (s : Str)
deriving DecidableEq, Repr

/-- The collection loop of rbdListVolumeSnapshots over the decoded JSON
entries. -/
def snapNamesLoop : List SnapEntry → List Str → Except GoError (List Str)
  | [], acc => .ok acc
  | .noName :: _, _ => .error (.errorf "No name property found")
  | .nonStringName :: _, _ => .error (.errorf "name property did not have string type")
  | .named s :: rest, acc => snapNamesLoop rest (acc ++ [trimSpaceL s])

/-- rbdListVolumeSnapshots, translated from the source: command failure
and JSON decoding failure propagate (both inside cmdResult); each entry
must carry a string "name"; an empty snapshot list becomes the 404
not-found error. -/
def rbdListVolumeSnapshots (cmdResult : Except GoError (List SnapEntry)) :
    Except GoError (List Str) :=
  match cmdResult with
  | .error e => .error e
  | .ok data =>
    match snapNamesLoop data [] with
    | .error e => .error e
    | .ok snapshots =>
      if snapshots.length == 0 then
        .error (.statusNotFound "Ceph RBD volume snapshot(s) not found")
      else .ok snapshots

/-- A backend oracle where every administrative operation succeeds and
every listing or parent query reports not-found; concrete claim inputs
override individual fields. -/
def envBase : CephEnv :=
  { poolName := "osd".toList,
    listVolumeSnapshots := fun _ => .error (.statusNotFound "Ceph RBD volume snapshot(s) not found"),
    listSnapshotClones := fun _ _ => .error (.statusNotFound "Ceph RBD volume snapshot not found"),
    getVolumeParent := fun _ => .error (.statusNotFound "Ceph RBD volume parent not found"),
    unmapVolume := fun _ => .ok (),
    unmapVolumeSnapshot := fun _ _ => .ok (),
    unprotectVolumeSnapshot := fun _ _ => .ok (),
    rbdDeleteVolume := fun _ => .ok (),
    rbdDeleteVolumeSnapshot := fun _ _ => .ok (),
    rbdMarkVolumeDeleted := fun _ _ => .ok (),
    rbdRenameVolumeSnapshot := fun _ _ _ => .ok (),
    freshUUID := "0a1b".toList }

/-- C1 failing input: a live volume owning the snapshot. -/
def volC1 : Volume :=
  { pool := "osd".toList, volType := VolumeTypeContainer, contentType := ContentTypeFS,
    name := "v1".toList, isDeleted := false, config := [] }

/-- C1 failing input: the snapshot has exactly one clone, zombie-marked. -/
def envC1 : CephEnv :=
  { envBase with listSnapshotClones := fun _ _ => .ok ["osd/zombie_container_c1".toList] }

/-- C1 failing input: the recursive DeleteVolume on the clone fully
deletes it (result 0, no error). -/
def recC1 : Volume → DelRes := fun _ => ((0 : Int), none)

/-- The clone volume deleteVolumeSnapshot builds for the C1 input. -/
def cloneVolC1 : Volume :=
  { pool := "osd".toList, volType := "container".toList, contentType := ContentTypeFS,
    name := "c1".toList, isDeleted := true, config := [] }

/-- C2 counterexample input: the owning volume is a zombie. -/
def volC2 : Volume :=
  { pool := "osd".toList, volType := VolumeTypeContainer, contentType := ContentTypeFS,
    name := "zv".toList, isDeleted := true, config := [] }

/-- C2 counterexample input: the cascade DeleteVolume on the owning
volume fails. -/
def recC2 : Volume → DelRes := fun _ => ((-1 : Int), some (.errorf "cascade failed"))

/-- C2 witness input: the cascade DeleteVolume succeeds. -/
def recC2w : Volume → DelRes := fun _ => ((0 : Int), none)

/-- C4 witness input: a live volume with one snapshot. -/
def volC4 : Volume :=
  { pool := "osd".toList, volType := VolumeTypeContainer, contentType := ContentTypeFS,
    name := "v4".toList, isDeleted := false, config := [] }

/-- C4 witness input: the volume has exactly one snapshot. -/
def envC4 : CephEnv :=
  { envBase with listVolumeSnapshots := fun _ => .ok ["snap1".toList] }

/-- C4 witness input: the recursive DeleteSnapshot zombifies the
snapshot. -/
def recC4 : Volume → Str → DelRes := fun _ _ => ((1 : Int), none)

/-- C5 witness input: a clone volume with no snapshots whose backend
parent is a live snapshot of a live volume. -/
def volC5 : Volume :=
  { pool := "osd".toList, volType := VolumeTypeContainer, contentType := ContentTypeFS,
    name := "v5".toList, isDeleted := false, config := [] }

/-- C5 witness input: the backend reports a live parent snapshot. -/
def envC5 : CephEnv :=
  { envBase with getVolumeParent := fun _ => .ok "osd/container_par@s1".toList }

/-- C5 witness input: recursive DeleteSnapshot oracle (never consulted on
the live-parent path). -/
def recC5 : Volume → Str → DelRes := fun _ _ => ((0 : Int), none)

/-- The parent volume parseParent decodes for the C5 witness input. -/
def parentVolC5 : Volume :=
  { pool := "osd".toList, volType := VolumeTypeContainer, contentType := ContentTypeFS,
    name := "par".toList, isDeleted := false, config := [] }

theorem splitFirstOn_of_not_mem (c : Char) (s : Str) (h : c ∉ s) :
    splitFirstOn c s = none := by
  induction s with
  | nil => rfl
  | cons x xs ih =>
    simp only [List.mem_cons, not_or] at h
    rw [splitFirstOn, if_neg (fun he => h.1 he.symm), ih h.2]

theorem splitFirstOn_append (c : Char) (a b : Str) (h : c ∉ a) :
    splitFirstOn c (a ++ c :: b) = some (a, b) := by
  induction a with
  | nil => simp [splitFirstOn]
  | cons x xs ih =>
    simp only [List.mem_cons, not_or] at h
    rw [List.cons_append, splitFirstOn, if_neg (fun he => h.1 he.symm), ih h.2]

theorem startsWithL_append (a : Str) : ∀ (s b : Str),
    startsWithL s (a ++ b) = (startsWithL s a && startsWithL (s.drop a.length) b) := by
  induction a with
  | nil => intro s b; simp [startsWithL]
  | cons c a ih =>
    intro s b
    cases s with
    | nil => simp [startsWithL]
    | cons x s => simp [startsWithL, ih, Bool.and_assoc]

theorem startsWithL_cons_ex (s : Str) (c : Char) (p : Str)
    (h : startsWithL s (c :: p) = true) :
    ∃ t, s = c :: t ∧ startsWithL t p = true := by
  cases s with
  | nil => simp [startsWithL] at h
  | cons x t =>
    simp only [startsWithL, Bool.and_eq_true, beq_iff_eq] at h
    exact ⟨t, by rw [h.1], h.2⟩

theorem startsWithL_cons_ne (x : Char) (t : Str) (c : Char) (p : Str)
    (h : (x == c) = false) : startsWithL (x :: t) (c :: p) = false := by
  simp [startsWithL, h]

theorem trimZombie_pos (s : Str) (h : startsWithL s zombieMark = true) :
    trimZombie s = s.drop zombieMark.length := by
  simp [trimZombie, h]

theorem trimZombie_neg (s : Str) (h : startsWithL s zombieMark = false) :
    trimZombie s = s := by
  simp [trimZombie, h]

theorem typeChecks_false (rest : Str) (tm : Str) (c : Char) (p : Str)
    (htm : tm = c :: p) (hc : (('z' : Char) == c) = false)
    (h : startsWithL (trimZombie rest) tm = false) :
    startsWithL rest tm = false ∧ startsWithL rest (zombieMark ++ tm) = false := by
  cases hz : startsWithL rest zombieMark with
  | false =>
    refine ⟨by rw [← trimZombie_neg rest hz]; exact h, ?_⟩
    rw [startsWithL_append, hz, Bool.false_and]
  | true =>
    constructor
    · obtain ⟨t, hrest, -⟩ := startsWithL_cons_ex rest 'z' "ombie_".toList
        (by rw [show ('z' :: "ombie_".toList) = zombieMark from by decide]; exact hz)
      rw [hrest, htm]
      exact startsWithL_cons_ne _ _ _ _ hc
    · rw [startsWithL_append, hz, Bool.true_and, ← trimZombie_pos rest hz]
      exact h

theorem snapLoop_ok (recSnap : Volume → Str → DelRes) (vol : Volume)
    (snaps : List Str) (z : Nat) (tr : Trace)
    (hrec : ∀ s ∈ snaps,
      recSnap vol s = ((0 : Int), none) ∨ recSnap vol s = ((1 : Int), none)) :
    snapLoop recSnap vol snaps z tr =
      .ok (z + snaps.countP (fun s => decide (recSnap vol s = ((1 : Int), none))),
           tr ++ snaps.map (Act.recDeleteSnapshot vol)) := by
  induction snaps generalizing z tr with
  | nil => simp [snapLoop]
  | cons s rest ih =>
    have hrest : ∀ t ∈ rest,
        recSnap vol t = ((0 : Int), none) ∨ recSnap vol t = ((1 : Int), none) :=
      fun t ht => hrec t (List.mem_cons_of_mem s ht)
    rcases hrec s (List.mem_cons_self s rest) with h | h
    · have hps : (decide (recSnap vol s = ((1 : Int), none))) = false := by
        rw [h]; decide
      have hi := ih z (tr ++ [Act.recDeleteSnapshot vol s]) hrest
      simp [snapLoop, h, hi, hps, List.countP_cons, List.append_assoc]
    · have hps : (decide (recSnap vol s = ((1 : Int), none))) = true := by
        rw [h]; decide
      have hi := ih (z + 1) (tr ++ [Act.recDeleteSnapshot vol s]) hrest
      simp [snapLoop, h, hi, hps, List.countP_cons, List.append_assoc]
      omega

theorem rbdDevScan_eq_find (pn : Str) (parts : List Str) (isSnap : Bool)
    (devs : List RBDDev) :
    rbdDevScan pn parts isSnap devs =
      (devs.find? (devMatch pn parts isSnap)).map (fun d => devPathOf d.idx) := by
  induction devs with
  | nil => simp [rbdDevScan]
  | cons dev rest ih =>
    rw [rbdDevScan]
    by_cases h1 : trimSpaceL dev.pool = pn
    · by_cases h2 : trimSpaceL dev.name = partAt parts 0
      · cases isSnap with
        | true =>
          cases h3 : snapAttrMatch parts (trimSpaceL dev.currentSnap) with
          | true => simp [h1, h2, h3, devMatch, List.find?_cons]
          | false => simp [h1, h2, h3, devMatch, List.find?_cons, ih]
        | false =>
          cases h3 : noSnapAttr (trimSpaceL dev.currentSnap) with
          | true => simp [h1, h2, h3, devMatch, List.find?_cons]
          | false => simp [h1, h2, h3, devMatch, List.find?_cons, ih]
      · simp [h1, h2, devMatch, List.find?_cons, ih]
    · simp [h1, devMatch, List.find?_cons, ih]

/-- C1: with a non-empty clone list whose every clone is zombie-marked
and recursively deleted with outcome 0 (no failure, no Zombified), and
with every snapshot operation succeeding on a live owning volume,
deleteVolumeSnapshot unprotects, unmaps and physically deletes the
snapshot (see the trace) but returns 1 (the Zombified outcome), not the
Deleted outcome 0 claimed by the spec and by the function's own
documentation comment. -/
theorem deleteVolumeSnapshot_removable_clones_returns_one :
    deleteVolumeSnapshot envC1 recC1 volC1 "snap0".toList =
      (((1 : Int), none),
       [Act.recDeleteVolume cloneVolC1,
        Act.unprotectSnap volC1 "snap0".toList,
        Act.unmapSnap volC1 "snap0".toList,
        Act.deleteSnap volC1 "snap0".toList]) := by
  decide

/-- C2 counterexample: with no clones (not-found), all snapshot
operations succeeding, a zombie owning volume and a failing cascade
DeleteVolume, deleteVolumeSnapshot returns (-1, the cascade error) — the
cascade failure does change the result away from the successful
(Deleted, no-error) outcome the claim promises. -/
theorem deleteVolumeSnapshot_cascade_failure_cex :
    (deleteVolumeSnapshot envBase recC2 volC2 "snap0".toList).1 =
      ((-1 : Int), some (.errorf "cascade failed"))
    ∧ (deleteVolumeSnapshot envBase recC2 volC2 "snap0".toList).1 ≠ ((0 : Int), none) := by
  decide

/-- C3 counterexample: the connection-to-stdin copy task failed while
the spawned process exited cleanly, yet receiveVolume reports success
(none) instead of the error the claim requires. -/
theorem receiveVolume_copy_error_swallowed_cex :
    receiveVolume none none none (some (.errorf "connection reset")) none [] = none := by
  decide

/-- C3 (amended): both outcomes are collected, but they are merged
asymmetrically — receiveVolume returns an error exactly when the process
exit status is an error, in which case the copy-task error (when present)
is included in the aggregate; a copy-task failure with a clean process
exit yields success. -/
theorem receiveVolume_join_spec (chCopyConnErr waitErr : Option GoError) (output : Str) :
    receiveVolume none none none chCopyConnErr waitErr output =
      match waitErr with
      | none => none
      | some e =>
        match chCopyConnErr with
        | none => some (.importDiff [e.brief] output)
        | some ce => some (.importDiff [e.brief, ce.brief] output) := by
  cases waitErr <;> cases chCopyConnErr <;> rfl

/-- C6: scripted against a list of command outcomes, nine consecutive
busy exits (code 16) followed by a clean exit make rbdUnmapVolume (with
unmapUntilEINVAL false) succeed with no error, and ten consecutive busy
exits make it surface the busy error; in both cases the remaining
scripted outcomes `rest` are returned untouched, so no eleventh unmap
command is attempted. -/
theorem rbdUnmapVolume_busy_retry_spec (k : Nat) (rest : List CmdOutcome) (flag : Bool) :
    rbdUnmapVolume listCmd false (k + 10)
        (List.replicate 9 (CmdOutcome.exit 16) ++ CmdOutcome.ok :: rest) =
      some (.ok (), rest)
    ∧ rbdUnmapVolume listCmd flag (k + 10)
        (List.replicate 10 (CmdOutcome.exit 16) ++ rest) =
      some (.error (.exitCode 16), rest) := by
  constructor <;> rfl

/-- C7: an unmap command exiting with code 22 (EINVAL, already unmapped)
is treated as success for any flag value and any scripted continuation;
and over the kernel mapping-state model, a first Unmap from any state
succeeds and leaves the volume unmapped, and a second Unmap (from the
unmapped state) also succeeds — the second call never errors. -/
theorem rbdUnmapVolume_already_unmapped_spec :
    (∀ (k : Nat) (rest : List CmdOutcome) (flag : Bool),
      rbdUnmapVolume listCmd flag (k + 1) (CmdOutcome.exit 22 :: rest) =
        some (.ok (), rest))
    ∧ (∀ (s f1 f2 : Bool),
      rbdUnmapVolume unmapKernelCmd f1 3 s = some (.ok (), false)
      ∧ rbdUnmapVolume unmapKernelCmd f2 3 false = some (.ok (), false)) := by
  constructor
  · intro k rest flag; rfl
  · intro s f1 f2; cases s <;> cases f1 <;> cases f2 <;> exact ⟨rfl, rfl⟩

/-- C8 counterexample: parseClone accepts a clone name whose remainder
after the pool matches none of the four type prefixes: decoding
"a/foo_bar" succeeds with type "foo" instead of failing with an
unrecognized-type error as the claim requires. -/
theorem parseClone_no_type_check_cex :
    parseClone "a/foo_bar".toList =
      .ok ("a".toList, "foo".toList, "bar".toList, false) := by
  rfl

/-- C2 (amended): when the clone listing reports not-found and the
unprotect, unmap and delete operations succeed, deleteVolumeSnapshot
unprotects, unmaps and physically deletes the snapshot; on a live owning
volume it returns (0, none); on a zombie owning volume it cascades
DeleteVolume, and the cascade is not best-effort: a cascade failure
(negative result) propagates as (-1, the cascade error), while a
successful cascade yields (0, none). -/
theorem deleteVolumeSnapshot_noClones_spec (env : CephEnv) (recVol : Volume → DelRes)
    (vol : Volume) (snapshotName : Str) (e : GoError)
    (h1 : env.listSnapshotClones vol snapshotName = .error e)
    (h2 : isNotFoundError e = true)
    (h3 : env.unprotectVolumeSnapshot vol snapshotName = .ok ())
    (h4 : env.unmapVolumeSnapshot vol snapshotName = .ok ())
    (h5 : env.rbdDeleteVolumeSnapshot vol snapshotName = .ok ()) :
    (vol.isDeleted = false →
      deleteVolumeSnapshot env recVol vol snapshotName =
        (((0 : Int), none),
         [Act.unprotectSnap vol snapshotName, Act.unmapSnap vol snapshotName,
          Act.deleteSnap vol snapshotName]))
    ∧ (vol.isDeleted = true →
      deleteVolumeSnapshot env recVol vol snapshotName =
        ((if (recVol vol).1 < 0 then ((-1 : Int), (recVol vol).2)
          else ((0 : Int), none)),
         [Act.unprotectSnap vol snapshotName, Act.unmapSnap vol snapshotName,
          Act.deleteSnap vol snapshotName, Act.recDeleteVolume vol])) := by
  unfold deleteVolumeSnapshot
  rw [h1]
  constructor <;> intro hd
  · simp [h2, hd, opThen, h3, h4, h5]
  · simp [h2, hd, opThen, h3, h4, h5]
    split <;> simp

/-- C2 witness: a concrete zombie owning volume with a succeeding cascade. -/
theorem deleteVolumeSnapshot_noClones_spec_wit :
    deleteVolumeSnapshot envBase recC2w volC2 "s0".toList =
      (((0 : Int), none),
       [Act.unprotectSnap volC2 "s0".toList, Act.unmapSnap volC2 "s0".toList,
        Act.deleteSnap volC2 "s0".toList, Act.recDeleteVolume volC2]) := by
  have h := deleteVolumeSnapshot_noClones_spec envBase recC2w volC2 "s0".toList
      (.statusNotFound "Ceph RBD volume snapshot not found") rfl rfl rfl rfl rfl
  simpa using h.2 rfl

/-- C4: when the snapshot listing succeeds and every recursive snapshot
deletion returns 0 or 1 without error, deleteVolume behaves as follows.
With at least one Zombified (1) result it never physically deletes the
volume: it unmaps the volume and, if the volume is already a zombie,
returns (1, none) without renaming, otherwise renames the volume into
zombie form (name plus a fresh unique suffix) and returns (1, none).
With zero Zombified results it physically deletes the volume and returns
(0, none). -/
theorem deleteVolume_zombie_spec (env : CephEnv) (recSnap : Volume → Str → DelRes)
    (vol : Volume) (snaps : List Str)
    (h1 : env.listVolumeSnapshots vol = .ok snaps)
    (hrec : ∀ s ∈ snaps,
      recSnap vol s = ((0 : Int), none) ∨ recSnap vol s = ((1 : Int), none))
    (h2 : env.unmapVolume vol = .ok ())
    (h3 : env.rbdMarkVolumeDeleted vol (vol.name ++ ('_' :: env.freshUUID)) = .ok ())
    (h4 : env.rbdDeleteVolume vol = .ok ()) :
    (0 < snaps.countP (fun s => decide (recSnap vol s = ((1 : Int), none))) →
      Act.deleteVol vol ∉ (deleteVolume env recSnap vol).2
      ∧ (vol.isDeleted = true →
          deleteVolume env recSnap vol =
            (((1 : Int), none),
             snaps.map (Act.recDeleteSnapshot vol) ++ [Act.unmapVol vol]))
      ∧ (vol.isDeleted = false →
          deleteVolume env recSnap vol =
            (((1 : Int), none),
             snaps.map (Act.recDeleteSnapshot vol) ++
               [Act.unmapVol vol,
                Act.markDeleted vol (vol.name ++ ('_' :: env.freshUUID))])))
    ∧ (snaps.countP (fun s => decide (recSnap vol s = ((1 : Int), none))) = 0 →
      deleteVolume env recSnap vol =
        (((0 : Int), none),
         snaps.map (Act.recDeleteSnapshot vol) ++ [Act.deleteVol vol])) := by
  have hloop := snapLoop_ok recSnap vol snaps 0 [] hrec
  constructor
  · intro hz
    have hres : deleteVolume env recSnap vol =
        (if vol.isDeleted then (((1 : Int), none),
            snaps.map (Act.recDeleteSnapshot vol) ++ [Act.unmapVol vol])
         else (((1 : Int), none),
            snaps.map (Act.recDeleteSnapshot vol) ++
              [Act.unmapVol vol,
               Act.markDeleted vol (vol.name ++ ('_' :: env.freshUUID))])) := by
      unfold deleteVolume
      rw [h1]
      dsimp only
      rw [hloop]
      dsimp only
      cases hd : vol.isDeleted <;>
        simp [opThen, h2, h3, hd, hz, List.append_assoc]
    refine ⟨?_, ?_, ?_⟩
    · rw [hres]
      cases hd : vol.isDeleted <;>
        simp [List.mem_append, List.mem_map]
    · intro hd; rw [hres, hd]; simp
    · intro hd; rw [hres, hd]; simp
  · intro hz
    unfold deleteVolume
    rw [h1]
    dsimp only
    rw [hloop]
    dsimp only
    simp [opThen, h4, hz, List.append_assoc]

/-- C4 witness: one snapshot whose recursive deletion zombifies, on a
live volume: the volume is renamed into zombie form, not deleted. -/
theorem deleteVolume_zombie_spec_wit :
    deleteVolume envC4 recC4 volC4 =
      (((1 : Int), none),
       [Act.recDeleteSnapshot volC4 "snap1".toList, Act.unmapVol volC4,
        Act.markDeleted volC4 ("v4".toList ++ ('_' :: "0a1b".toList))]) := by
  have h := deleteVolume_zombie_spec envC4 recC4 volC4 ["snap1".toList] rfl
      (fun s _ => Or.inr rfl) rfl rfl rfl
  have h2 := (h.1 (by decide)).2.2 rfl
  simpa using h2

/-- C5: when the snapshot listing reports not-found, the backend reports
a parent snapshot reference that parseParent decodes, and the unmap and
delete operations succeed, deleteVolume unmaps and deletes the volume;
it recursively attempts DeleteSnapshot on the parent exactly when the
parent volume is a zombie or the parent snapshot name carries the zombie
marker, and for a live (non-zombie) parent the trace contains only the
unmap and delete of the volume itself — the parent is left untouched —
and the result is (0, none). -/
theorem deleteVolume_parent_spec (env : CephEnv) (recSnap : Volume → Str → DelRes)
    (vol : Volume) (e : GoError) (parent : Str)
    (parentVol : Volume) (parentSnapshotName : Str)
    (h1 : env.listVolumeSnapshots vol = .error e)
    (h2 : isNotFoundError e = true)
    (h3 : env.getVolumeParent vol = .ok parent)
    (h4 : parseParent parent = .ok (parentVol, parentSnapshotName))
    (h5 : env.unmapVolume vol = .ok ())
    (h6 : env.rbdDeleteVolume vol = .ok ()) :
    ((parentVol.isDeleted = false ∧ startsWithL parentSnapshotName zombieMark = false) →
      deleteVolume env recSnap vol =
        (((0 : Int), none), [Act.unmapVol vol, Act.deleteVol vol]))
    ∧ ((parentVol.isDeleted = true ∨ startsWithL parentSnapshotName zombieMark = true) →
      deleteVolume env recSnap vol =
        ((if (recSnap parentVol parentSnapshotName).1 < 0
          then ((-1 : Int), (recSnap parentVol parentSnapshotName).2)
          else ((0 : Int), none)),
         [Act.unmapVol vol, Act.deleteVol vol,
          Act.recDeleteSnapshot parentVol parentSnapshotName])) := by
  unfold deleteVolume
  rw [h1]
  constructor
  · intro hd
    simp [h2, h3, h4, opThen, h5, h6, hd.1, hd.2]
  · intro hd
    have hcond : (parentVol.isDeleted || startsWithL parentSnapshotName zombieMark) = true := by
      rcases hd with hd | hd <;> simp [hd]
    simp [h2, h3, h4, opThen, h5, h6, hcond]
    split <;> simp

/-- C5 witness: a clone volume whose parent snapshot is live — the call
deletes the clone and leaves the parent untouched. -/
theorem deleteVolume_parent_spec_wit :
    deleteVolume envC5 recC5 volC5 =
      (((0 : Int), none), [Act.unmapVol volC5, Act.deleteVol volC5]) := by
  have h := deleteVolume_parent_spec envC5 recC5 volC5
      (.statusNotFound "Ceph RBD volume snapshot(s) not found")
      "osd/container_par@s1".toList parentVolC5 "s1".toList
      rfl rfl rfl (by rfl) rfl rfl
  exact h.1 ⟨rfl, by rfl⟩

/-- C8 (amended): a string without the pool delimiter makes both
parseParent and parseClone fail with the malformed-name (pool delimiter)
error; a pool-qualified string whose remainder, after stripping the
optional zombie marker, starts with none of the four type prefixes makes
parseParent fail with the unrecognized-parent error; parseClone however
performs no type-prefix validation — its only decode failures are the
missing pool delimiter and (when no underscore remains) the generic
parsing error, never an unrecognized-type error. -/
theorem parse_decode_failure_spec (s pool rest : Str)
    (hs : ('/' : Char) ∉ s)
    (hp : ('/' : Char) ∉ pool)
    (h1 : startsWithL (trimZombie rest) "container_".toList = false)
    (h2 : startsWithL (trimZombie rest) "virtual-machine_".toList = false)
    (h3 : startsWithL (trimZombie rest) "image_".toList = false)
    (h4 : startsWithL (trimZombie rest) "custom_".toList = false) :
    (parseParent s = .error .poolDelimiterNotFound
      ∧ parseClone s = .error .poolDelimiterNotFound)
    ∧ parseParent (pool ++ '/' :: rest) =
        .error (.unrecognizedParent (pool ++ '/' :: rest))
    ∧ (∀ (t : Str) (r : GoError), parseClone t = .error r →
        r = .poolDelimiterNotFound ∨ r = .unexpectedParsing) := by
  refine ⟨⟨?_, ?_⟩, ?_, ?_⟩
  · simp [parseParent, goSplitN2Char, splitFirstOn_of_not_mem '/' s hs]
  · simp [parseClone, goSplitN2Char, splitFirstOn_of_not_mem '/' s hs]
  · have hcont := typeChecks_false rest "container_".toList 'c' "ontainer_".toList
      (by decide) (by decide) h1
    have hvm := typeChecks_false rest "virtual-machine_".toList 'v' "irtual-machine_".toList
      (by decide) (by decide) h2
    have himg := typeChecks_false rest "image_".toList 'i' "mage_".toList
      (by decide) (by decide) h3
    have hcust := typeChecks_false rest "custom_".toList 'c' "ustom_".toList
      (by decide) (by decide) h4
    have hzc : startsWithL rest "zombie_container_".toList = false := by
      rw [show "zombie_container_".toList = zombieMark ++ "container_".toList from by decide]
      exact hcont.2
    have hzv : startsWithL rest "zombie_virtual-machine_".toList = false := by
      rw [show "zombie_virtual-machine_".toList = zombieMark ++ "virtual-machine_".toList from by decide]
      exact hvm.2
    have hzi : startsWithL rest "zombie_image_".toList = false := by
      rw [show "zombie_image_".toList = zombieMark ++ "image_".toList from by decide]
      exact himg.2
    have hzcu : startsWithL rest "zombie_custom_".toList = false := by
      rw [show "zombie_custom_".toList = zombieMark ++ "custom_".toList from by decide]
      exact hcust.2
    unfold parseParent goSplitN2Char
    rw [splitFirstOn_append '/' pool rest hp]
    dsimp only
    rw [himg.1, hzi, hcust.1, hzcu, hcont.1, hzc, hvm.1, hzv]
    simp
  · intro t r ht
    unfold parseClone at ht
    rcases hsp : goSplitN2Char '/' t with _ | ⟨a, _ | ⟨b, _ | _⟩⟩ <;> rw [hsp] at ht <;>
      simp_all
    rcases hsp2 : goSplitN2Char '_' (trimZombie b) with _ | ⟨c, _ | ⟨d, _ | _⟩⟩ <;>
      rw [hsp2] at ht <;> simp_all

/-- C8 witness: concrete inputs for the three hypothesis groups. -/
theorem parse_decode_failure_spec_wit :
    (parseParent "abc".toList = .error .poolDelimiterNotFound
      ∧ parseClone "abc".toList = .error .poolDelimiterNotFound)
    ∧ parseParent ("p".toList ++ '/' :: "foo_bar".toList) =
        .error (.unrecognizedParent ("p".toList ++ '/' :: "foo_bar".toList))
    ∧ (∀ (t : Str) (r : GoError), parseClone t = .error r →
        r = .poolDelimiterNotFound ∨ r = .unexpectedParsing) :=
  parse_decode_failure_spec "abc".toList "p".toList "foo_bar".toList
    (by decide) (by decide) (by decide) (by decide) (by decide) (by decide)

/-- C9: full characterization of the resolver.  getRBDMappedDevPath
returns exactly the first enumerated device satisfying devMatch — which
requires the pool and image name to match and the snapshot identity to
agree: a snapshot volume needs the device current_snap attribute to equal
the volume snapshot name (snapAttrMatch), a live volume needs it to be
"-" or empty (noSnapAttr) — as (wasNewlyMapped = false, its device path);
when no device matches it maps the volume only when mapIfMissing is set,
and with mapIfMissing false it fails with the not-mapped error. -/
theorem getRBDMappedDevPath_spec (poolName : Str) (devices : List RBDDev)
    (vol : Volume) (mapIfMissing : Bool) (mapResult : Except GoError Str) :
    getRBDMappedDevPath poolName devices vol mapIfMissing mapResult =
      match devices.find? (devMatch poolName (rbdNameParts vol) (Volume.IsSnapshot vol)) with
      | some dev => .ok (false, devPathOf dev.idx)
      | none =>
        if mapIfMissing then
          match mapResult with
          | .ok devPath => .ok (true, devPath)
          | .error e => .error e
        else .error (.volumeNotMapped vol.name) := by
  unfold getRBDMappedDevPath
  rw [rbdDevScan_eq_find]
  cases devices.find? (devMatch poolName (rbdNameParts vol) (Volume.IsSnapshot vol)) <;> simp

/-- C10: the listing helpers never return an empty list with success:
every successful result of rbdListVolumeSnapshots or
rbdListSnapshotClones is a non-empty list (an empty backend report is
turned into the 404 not-found error instead). -/
theorem rbdList_listings_nonempty (cmdV : Except GoError (List SnapEntry))
    (cmdC : Except GoError Str) (lv lc : List Str)
    (hv : rbdListVolumeSnapshots cmdV = .ok lv)
    (hc : rbdListSnapshotClones cmdC = .ok lc) :
    lv ≠ [] ∧ lc ≠ [] := by
  constructor
  · unfold rbdListVolumeSnapshots at hv
    cases cmdV with
    | error e => simp at hv
    | ok data =>
      dsimp only at hv
      cases hl : snapNamesLoop data [] with
      | error e => rw [hl] at hv; simp at hv
      | ok snapshots =>
        rw [hl] at hv
        dsimp only at hv
        split at hv
        · simp at hv
        · rename_i hcond
          injection hv with h
          subst h
          intro hnil
          rw [hnil] at hcond
          simp at hcond
  · unfold rbdListSnapshotClones at hc
    cases cmdC with
    | error e => simp at hc
    | ok msg =>
      dsimp only at hc
      split at hc
      · simp at hc
      · rename_i hcond
        injection hc with h
        subst h
        intro hnil
        rw [hnil] at hcond
        simp at hcond

/-- C10 witness: concrete one-element listings. -/
theorem rbdList_listings_nonempty_wit :
    ("s1".toList :: []) ≠ ([] : List Str) ∧ ("c1".toList :: []) ≠ ([] : List Str) :=
  rbdList_listings_nonempty (.ok [SnapEntry.named "s1".toList]) (.ok "c1".toList)
    ["s1".toList] ["c1".toList] (by rfl) (by rfl)
